import Mathlib

/-!
Verification of the SGN subtitle pipeline (`src/sgn.py`) against its
natural-language specification.

Strings are modelled as `List Char` (Python `str`, ASCII fragment; all
keyword constants and markers in the source are ASCII).  Each definition
below is a shallow embedding of the correspondingly named Python function.
-/

namespace SGN

/-- Python `str`. -/
abbrev Str := List Char

/-- The ASCII whitespace characters stripped by Python `str.strip()` and
matched by the regex class `\s`: space, tab, newline, carriage return,
vertical tab, form feed. -/
def isPySpace (c : Char) : Bool :=
  c.toNat = 32 || c.toNat = 9 || c.toNat = 10 || c.toNat = 13 ||
  c.toNat = 11 || c.toNat = 12

/-- Python `str.strip()`: remove leading and trailing whitespace. -/
def pyStrip (s : Str) : Str :=
  ((s.dropWhile isPySpace).reverse.dropWhile isPySpace).reverse

/-- Python `str.lower()` on the ASCII fragment, characterwise
(`Char.toLower` maps exactly the basic latin letters). -/
def lowerL (s : Str) : Str := s.map Char.toLower

/-- Python's substring operator `needle in hay`. -/
def containsSub (needle : Str) : Str → Bool
  | [] => needle.isPrefixOf []
  | c :: t => needle.isPrefixOf (c :: t) || containsSub needle t

/-- Split off everything before the first comma: `some (before, after)`
when a comma occurs, `none` otherwise. -/
def breakComma : Str → Option (Str × Str)
  | [] => none
  | c :: cs =>
    if c = ',' then some ([], cs)
    else
      match breakComma cs with
      | none => none
      | some p => some (c :: p.1, p.2)

/-- Python `s.split(',', n)`: split on commas at most `n` times from the
left, the remainder (which may still contain commas) is the last field. -/
def pySplitAux : Nat → Str → List Str
  | 0, s => [s]
  | n + 1, s =>
    match breakComma s with
    | none => [s]
    | some p => p.1 :: pySplitAux n p.2

/-- `line.split(',', 9)` from `create_sign_subtitles`: at most ten fields,
the text field keeps its embedded commas. -/
def pySplit (s : Str) : List Str := pySplitAux 9 s

/-- `"[Events]"` — the Events section header marker. -/
def hdrEvents : Str := "[Events]".data

/-- `"["` — any section header starts with an opening bracket. -/
def hdrOpen : Str := "[".data

/-- `"Dialogue:"` — the dialogue event marker. -/
def dlgMarker : Str := "Dialogue:".data

/-- `style_keywords = ["sign", "signs", "overlay", "text", "caption"]`. -/
def style_keywords : List Str :=
  ["sign".data, "signs".data, "overlay".data, "text".data, "caption".data]

/-- `effect_keywords = ["\\an", "\\pos", "\\move", "\\fad"]`. -/
def effect_keywords : List Str :=
  ["\\an".data, "\\pos".data, "\\move".data, "\\fad".data]

/-- `actor_keywords = ["sign", "signs"]`. -/
def actor_keywords : List Str :=
  ["sign".data, "signs".data]

/-- The keyword test applied to the four inspected fields of a Dialogue
line (`sgn.py` lines 162-172): style and actor/name are stripped and
lowercased and compared against lowercased keywords; effect and text are
only stripped and compared against the literal (lowercase) tag markers. -/
def dialogueKeep (style name effect text : Str) : Bool :=
  let style := lowerL (pyStrip style)
  let name := lowerL (pyStrip name)
  let effect := pyStrip effect
  let text := pyStrip text
  style_keywords.any (fun kw => containsSub (lowerL kw) style) ||
  actor_keywords.any (fun kw => containsSub (lowerL kw) name) ||
  effect_keywords.any (fun kw => containsSub kw effect) ||
  effect_keywords.any (fun kw => containsSub kw text)

/-- The loop body state machine of `create_sign_subtitles` (lines 145-177):
each raw line is stripped; an `[Events]` header enters the Events section
and is emitted; any other `[`-header leaves it and is emitted; a Dialogue
line inside the Events section is split into at most ten fields, dropped
when fewer than ten result, and otherwise emitted (in stripped form) iff
the keyword test holds; every remaining line is dropped. -/
def signGo (in_events : Bool) : List Str → List Str
  | [] => []
  | raw :: rest =>
    let line := pyStrip raw
    if hdrEvents.isPrefixOf line then line :: signGo true rest
    else if hdrOpen.isPrefixOf line then line :: signGo false rest
    else if in_events && dlgMarker.isPrefixOf line then
      (if (pySplit line).length < 10 then signGo in_events rest
       else if dialogueKeep ((pySplit line).getD 3 []) ((pySplit line).getD 4 [])
                ((pySplit line).getD 8 []) ((pySplit line).getD 9 []) then
         line :: signGo in_events rest
       else signGo in_events rest)
    else signGo in_events rest

/-- `create_sign_subtitles`, as a pure function from the input document's
lines (the result of `content.split('\n')`) to the emitted
`filtered_lines`; the `in_events` flag starts out false. -/
def create_sign_subtitles (doc : List Str) : List Str :=
  signGo false doc

/-- The `in_events` flag after the loop of `create_sign_subtitles` has
processed the given lines starting from state `b`: an `[Events]` header
sets it, any other `[`-header clears it, every other line leaves it
unchanged.  A line is "inside the Events section" exactly when this flag
is true over the lines preceding it. -/
def eventsState (b : Bool) : List Str → Bool
  | [] => b
  | raw :: rest =>
    let line := pyStrip raw
    if hdrEvents.isPrefixOf line then eventsState true rest
    else if hdrOpen.isPrefixOf line then eventsState false rest
    else eventsState b rest

/-! ### Supporting lemmas about the classifier -/

theorem char_toNat_ofNat_lt (n : Nat) (h : n < 55296) : (Char.ofNat n).toNat = n := by
  have hv : n.isValidChar := Or.inl h
  simp [Char.ofNat, hv, Char.ofNatAux, Char.toNat, UInt32.toNat]

theorem isPySpace_toLower (c : Char) : isPySpace (Char.toLower c) = isPySpace c := by
  simp only [Char.toLower]
  split
  next h =>
    have h1 : (Char.ofNat (c.toNat + 32)).toNat = c.toNat + 32 :=
      char_toNat_ofNat_lt _ (by omega)
    have h2 : isPySpace (Char.ofNat (c.toNat + 32)) = false := by
      simp only [isPySpace, h1, Bool.or_eq_false_iff, decide_eq_false_iff_not]
      omega
    have h3 : isPySpace c = false := by
      simp only [isPySpace, Bool.or_eq_false_iff, decide_eq_false_iff_not]
      omega
    rw [h2, h3]
  next => rfl

theorem lowerL_pyStrip (s : Str) : lowerL (pyStrip s) = pyStrip (lowerL s) := by
  have hcomp : (fun c => isPySpace (Char.toLower c)) = isPySpace := by
    funext c; exact isPySpace_toLower c
  simp only [lowerL, pyStrip, List.dropWhile_map, ← List.map_reverse, Function.comp_def, hcomp]

theorem hdrOpen_of_hdrEvents {l : Str} (h : hdrEvents.isPrefixOf l = true) :
    hdrOpen.isPrefixOf l = true := by
  rw [List.isPrefixOf_iff_prefix] at h ⊢
  exact List.IsPrefix.trans (by decide) h

theorem not_hdrOpen_of_dlg {l : Str} (h : dlgMarker.isPrefixOf l = true) :
    hdrOpen.isPrefixOf l = false := by
  cases l with
  | nil => simp [dlgMarker, List.isPrefixOf] at h
  | cons c t =>
    simp only [dlgMarker, hdrOpen, List.isPrefixOf, Bool.and_eq_true, beq_iff_eq] at h ⊢
    simp only [Bool.and_eq_false_iff]
    left
    rcases h with ⟨rfl, -⟩
    decide

/-- Section-header lines are preserved: filtering the classifier's output
down to lines starting with `[` recovers exactly the (stripped) header
lines of the input, in order. -/
theorem signGo_filter_hdr (doc : List Str) (b : Bool) :
    (signGo b doc).filter (fun l => hdrOpen.isPrefixOf l)
      = (doc.map pyStrip).filter (fun l => hdrOpen.isPrefixOf l) := by
  induction doc generalizing b with
  | nil => rfl
  | cons raw rest ih =>
    simp only [signGo, List.map_cons]
    by_cases h1 : hdrEvents.isPrefixOf (pyStrip raw) = true
    · simp [h1, hdrOpen_of_hdrEvents h1, List.filter_cons, ih]
    · by_cases h2 : hdrOpen.isPrefixOf (pyStrip raw) = true
      · simp [h1, h2, List.filter_cons, ih]
      · by_cases h3 : (b && dlgMarker.isPrefixOf (pyStrip raw)) = true
        · simp only [h1, h2, h3, if_true, if_false, Bool.false_eq_true]
          split
          · simp [List.filter_cons, h2, ih]
          · split
            · simp [List.filter_cons, h2, ih]
            · simp [List.filter_cons, h2, ih]
        · simp [h1, h2, h3, List.filter_cons, ih]

/-- Every line the classifier emits is either a (stripped) section-header
line or a (stripped) Dialogue line that split into ten fields and passed
the keyword test. -/
theorem signGo_elem (doc : List Str) (b : Bool) :
    ∀ e ∈ signGo b doc,
      hdrOpen.isPrefixOf e = true ∨
        (dlgMarker.isPrefixOf e = true ∧ 10 ≤ (pySplit e).length ∧
          dialogueKeep ((pySplit e).getD 3 []) ((pySplit e).getD 4 [])
            ((pySplit e).getD 8 []) ((pySplit e).getD 9 []) = true) := by
  induction doc generalizing b with
  | nil => intro e he; simp [signGo] at he
  | cons raw rest ih =>
    intro e he
    simp only [signGo] at he
    by_cases h1 : hdrEvents.isPrefixOf (pyStrip raw) = true
    · rw [if_pos h1] at he
      rcases List.mem_cons.mp he with rfl | hmem
      · exact Or.inl (hdrOpen_of_hdrEvents h1)
      · exact ih true e hmem
    · rw [if_neg h1] at he
      by_cases h2 : hdrOpen.isPrefixOf (pyStrip raw) = true
      · rw [if_pos h2] at he
        rcases List.mem_cons.mp he with rfl | hmem
        · exact Or.inl h2
        · exact ih false e hmem
      · rw [if_neg h2] at he
        by_cases h3 : (b && dlgMarker.isPrefixOf (pyStrip raw)) = true
        · rw [if_pos h3] at he
          by_cases h4 : (pySplit (pyStrip raw)).length < 10
          · rw [if_pos h4] at he
            exact ih b e he
          · rw [if_neg h4] at he
            by_cases h5 : dialogueKeep ((pySplit (pyStrip raw)).getD 3 [])
                ((pySplit (pyStrip raw)).getD 4 []) ((pySplit (pyStrip raw)).getD 8 [])
                ((pySplit (pyStrip raw)).getD 9 []) = true
            · rw [if_pos h5] at he
              rcases List.mem_cons.mp he with rfl | hmem
              · exact Or.inr ⟨(Bool.and_eq_true _ _ |>.mp h3).2, Nat.le_of_not_lt h4, h5⟩
              · exact ih b e hmem
            · rw [if_neg h5] at he
              exact ih b e he
        · rw [if_neg h3] at he
          exact ih b e he

/-- The classifier's output is a sublist of the stripped input lines:
order-preserving, duplication-free, each kept line being its input line
stripped of surrounding whitespace. -/
theorem signGo_sublist (doc : List Str) (b : Bool) :
    List.Sublist (signGo b doc) (doc.map pyStrip) := by
  induction doc generalizing b with
  | nil => simp [signGo]
  | cons raw rest ih =>
    simp only [signGo, List.map_cons]
    by_cases h1 : hdrEvents.isPrefixOf (pyStrip raw) = true
    · rw [if_pos h1]; exact List.Sublist.cons₂ _ (ih true)
    · by_cases h2 : hdrOpen.isPrefixOf (pyStrip raw) = true
      · rw [if_neg h1, if_pos h2]; exact List.Sublist.cons₂ _ (ih false)
      · by_cases h3 : (b && dlgMarker.isPrefixOf (pyStrip raw)) = true
        · simp only [h1, h2, h3, if_true, if_false, Bool.false_eq_true]
          split
          · exact List.Sublist.cons _ (ih b)
          · split
            · exact List.Sublist.cons₂ _ (ih b)
            · exact List.Sublist.cons _ (ih b)
        · simp only [h1, h2, h3, if_false, Bool.false_eq_true]
          exact List.Sublist.cons _ (ih b)

/-- A Dialogue-marked line that splits into fewer than ten fields never
changes the classifier's state or output: deleting it from the document
leaves the output unchanged. -/
theorem signGo_drop_malformed (l : Str)
    (h1 : dlgMarker.isPrefixOf (pyStrip l) = true)
    (h2 : (pySplit (pyStrip l)).length < 10) (b : Bool) (pre post : List Str) :
    signGo b (pre ++ l :: post) = signGo b (pre ++ post) := by
  have hno : hdrOpen.isPrefixOf (pyStrip l) = false := not_hdrOpen_of_dlg h1
  have hne : hdrEvents.isPrefixOf (pyStrip l) = false := by
    cases h : hdrEvents.isPrefixOf (pyStrip l)
    · rfl
    · rw [hdrOpen_of_hdrEvents h] at hno; exact hno
  induction pre generalizing b with
  | nil =>
    simp only [List.nil_append, signGo, hne, hno, Bool.false_eq_true, if_false]
    cases b
    · simp
    · simp [h1, h2]
  | cons p ps ih =>
    simp only [List.cons_append, signGo]
    by_cases g1 : hdrEvents.isPrefixOf (pyStrip p) = true
    · simp [g1, ih]
    · by_cases g2 : hdrOpen.isPrefixOf (pyStrip p) = true
      · simp [g1, g2, ih]
      · by_cases g3 : (b && dlgMarker.isPrefixOf (pyStrip p)) = true
        · simp only [g1, g2, g3, if_true, if_false, Bool.false_eq_true]
          split
          · exact ih b
          · split
            · exact congrArg (List.cons (pyStrip p)) (ih b)
            · exact ih b
        · simp [g1, g2, g3, ih]

/-- A Dialogue-marked line positioned outside the Events section (the
`in_events` flag is false when the loop reaches it) is never emitted and
never changes the state: deleting it from the document leaves the
classifier's output unchanged. -/
theorem signGo_drop_outside (l : Str)
    (hd : dlgMarker.isPrefixOf (pyStrip l) = true) :
    ∀ (b : Bool) (pre post : List Str), eventsState b pre = false →
      signGo b (pre ++ l :: post) = signGo b (pre ++ post) := by
  have hno : hdrOpen.isPrefixOf (pyStrip l) = false := not_hdrOpen_of_dlg hd
  have hne : hdrEvents.isPrefixOf (pyStrip l) = false := by
    cases h : hdrEvents.isPrefixOf (pyStrip l)
    · rfl
    · rw [hdrOpen_of_hdrEvents h] at hno; exact hno
  intro b pre post
  induction pre generalizing b with
  | nil =>
    intro hb
    simp only [eventsState] at hb
    subst hb
    simp [signGo, hne, hno]
  | cons p ps ih =>
    intro hb
    simp only [eventsState] at hb
    simp only [List.cons_append, signGo]
    by_cases g1 : hdrEvents.isPrefixOf (pyStrip p) = true
    · rw [if_pos g1] at hb
      simp [g1]
      exact ih true hb
    · rw [if_neg g1] at hb
      by_cases g2 : hdrOpen.isPrefixOf (pyStrip p) = true
      · rw [if_pos g2] at hb
        simp [g1, g2]
        exact ih false hb
      · rw [if_neg g2] at hb
        by_cases g3 : (b && dlgMarker.isPrefixOf (pyStrip p)) = true
        · simp [g1, g2, g3]
          split
          · exact ih b hb
          · split
            · exact congrArg (List.cons (pyStrip p)) (ih b hb)
            · exact ih b hb
        · simp [g1, g2, g3]
          exact ih b hb

/-! ### Claims C1-C4: the Sign-Subtitle Classifier -/

/-- Claim C1, counterexample: the non-Dialogue line `Title: x` (outside
the Events section) does not appear in the classifier's output at all —
the code emits only section-header lines and kept Dialogue lines, so the
claim that every non-Dialogue line is preserved is false. -/
theorem claim1_counterexample :
    create_sign_subtitles ["[Script Info]".data, "Title: x".data]
        = ["[Script Info]".data]
    ∧ "Title: x".data ∉ create_sign_subtitles ["[Script Info]".data, "Title: x".data] := by
  constructor
  · decide
  · decide

/-- Claim C1, amended: only section-header lines (lines whose stripped
form starts with `[`) are preserved, in stripped form and in original
order; every line the classifier outputs is either such a header line or
a kept Dialogue event — one that split into ten fields and passed the
keyword test — so all other non-Dialogue input lines are dropped; and a
Dialogue line positioned outside the Events section is dropped without
being classified: deleting it never changes the output. -/
theorem claim1_headers_preserved (doc : List Str) :
    ((create_sign_subtitles doc).filter (fun l => hdrOpen.isPrefixOf l)
        = (doc.map pyStrip).filter (fun l => hdrOpen.isPrefixOf l))
    ∧ (∀ e ∈ create_sign_subtitles doc,
        hdrOpen.isPrefixOf e = true ∨
          (dlgMarker.isPrefixOf e = true ∧ 10 ≤ (pySplit e).length ∧
            dialogueKeep ((pySplit e).getD 3 []) ((pySplit e).getD 4 [])
              ((pySplit e).getD 8 []) ((pySplit e).getD 9 []) = true))
    ∧ (∀ (l : Str) (pre post : List Str),
        dlgMarker.isPrefixOf (pyStrip l) = true →
        eventsState false pre = false →
        create_sign_subtitles (pre ++ l :: post)
          = create_sign_subtitles (pre ++ post)) :=
  ⟨signGo_filter_hdr doc false,
   fun e he => signGo_elem doc false e he,
   fun l pre post hd hb => signGo_drop_outside l hd false pre post hb⟩

/-- Claim C1, witness: a Dialogue line (sign-matching, even) sitting in
the `[Script Info]` section — outside the Events section — is dropped:
the concrete document behaves as if the line were not there. -/
theorem claim1_witness :
    create_sign_subtitles
        ["[Script Info]".data,
         "Dialogue: 0,a,b,Sign,n,0,0,0,,t".data, "[Events]".data]
      = create_sign_subtitles ["[Script Info]".data, "[Events]".data] :=
  (claim1_headers_preserved
      ["[Script Info]".data, "Dialogue: 0,a,b,Sign,n,0,0,0,,t".data, "[Events]".data]).2.2
    ("Dialogue: 0,a,b,Sign,n,0,0,0,,t".data) ["[Script Info]".data]
    ["[Events]".data] (by decide) (by decide)

/-- Claim C2, counterexample: the two input documents differ only in the
letter case of the text field's tag marker (`\pos` versus `\POS`), yet
the lowercase one is kept and the uppercase one is dropped — the effect
and text tag-marker tests are case-sensitive in the code. -/
theorem claim2_counterexample :
    lowerL ("Dialogue: 0,a,b,Default,Narrator,0,0,0,,sub \\POS(1,1) x".data)
        = lowerL ("Dialogue: 0,a,b,Default,Narrator,0,0,0,,sub \\pos(1,1) x".data)
    ∧ create_sign_subtitles
        [hdrEvents, "Dialogue: 0,a,b,Default,Narrator,0,0,0,,sub \\pos(1,1) x".data]
        = [hdrEvents, "Dialogue: 0,a,b,Default,Narrator,0,0,0,,sub \\pos(1,1) x".data]
    ∧ create_sign_subtitles
        [hdrEvents, "Dialogue: 0,a,b,Default,Narrator,0,0,0,,sub \\POS(1,1) x".data]
        = [hdrEvents] := by
  refine ⟨by decide, by decide, by decide⟩

/-- Claim C2, amended: the style and actor/name keyword tests are
case-insensitive — changing the letter case of those two fields never
changes the classification — but the effect and text tag-marker tests
are case-sensitive (they match the lowercase markers literally), as the
concrete second conjunct shows. -/
theorem claim2_style_actor_case_insensitive :
    (∀ style style' name name' effect text : Str,
        lowerL style = lowerL style' → lowerL name = lowerL name' →
        dialogueKeep style name effect text = dialogueKeep style' name' effect text)
    ∧ dialogueKeep ("Default".data) ("Narrator".data) [] ("sub \\pos(1,1) x".data)
        ≠ dialogueKeep ("Default".data) ("Narrator".data) [] ("sub \\POS(1,1) x".data) := by
  constructor
  · intro s s' n n' e t hs hn
    simp only [dialogueKeep, lowerL_pyStrip, hs, hn]
  · decide

/-- Claim C2, witness: the amended theorem applied to the concrete
case-variant style fields `SIGN` and `sign` (same classification). -/
theorem claim2_witness :
    dialogueKeep ("SIGN".data) ("n".data) [] ("t".data)
      = dialogueKeep ("sign".data) ("n".data) [] ("t".data) :=
  claim2_style_actor_case_insensitive.1 ("SIGN".data) ("sign".data)
    ("n".data) ("n".data) [] ("t".data) (by decide) rfl

/-- Claim C3, confirmed: a line whose stripped form starts with
`Dialogue:` but splits into fewer than ten comma-delimited fields never
appears in the classifier's output of any document, and deleting such a
line from any document leaves the output unchanged (it is dropped
silently; the total function `create_sign_subtitles` returns normally). -/
theorem claim3_malformed_dropped (doc : List Str) (l : Str)
    (h1 : dlgMarker.isPrefixOf (pyStrip l) = true)
    (h2 : (pySplit (pyStrip l)).length < 10) :
    pyStrip l ∉ create_sign_subtitles doc
    ∧ ∀ (b : Bool) (pre post : List Str),
        signGo b (pre ++ l :: post) = signGo b (pre ++ post) := by
  constructor
  · intro hmem
    rcases signGo_elem doc false _ hmem with hhdr | ⟨-, hlen, -⟩
    · rw [not_hdrOpen_of_dlg h1] at hhdr
      exact Bool.false_ne_true hhdr
    · exact absurd hlen (Nat.not_le_of_lt h2)
  · intro b pre post
    exact signGo_drop_malformed l h1 h2 b pre post

/-- Claim C3, witness: the malformed line `Dialogue: 0,x` (three fields)
is absent from the output of a document that contains it. -/
theorem claim3_witness :
    pyStrip ("Dialogue: 0,x".data)
      ∉ create_sign_subtitles [hdrEvents, "Dialogue: 0,x".data] :=
  (claim3_malformed_dropped [hdrEvents, "Dialogue: 0,x".data]
    ("Dialogue: 0,x".data) (by decide) (by decide)).1

/-- Claim C4, counterexample: a kept Dialogue event whose input line
carries a trailing space is emitted stripped, not character-for-character
equal to its input line — the input line itself is absent from the
output. -/
theorem claim4_counterexample :
    create_sign_subtitles [hdrEvents, "Dialogue: 0,a,b,Sign,n,0,0,0,,t ".data]
        = [hdrEvents, "Dialogue: 0,a,b,Sign,n,0,0,0,,t".data]
    ∧ "Dialogue: 0,a,b,Sign,n,0,0,0,,t ".data
        ∉ create_sign_subtitles [hdrEvents, "Dialogue: 0,a,b,Sign,n,0,0,0,,t ".data] := by
  refine ⟨by decide, by decide⟩

/-- Claim C4, amended: classification is a pure, order-preserving,
duplication-free filter over the whitespace-stripped input lines — the
output is a sublist of the stripped lines, so each kept event equals its
input line with surrounding whitespace removed (verbatim whenever the
input line carries no surrounding whitespace), and no event is reordered
or duplicated. -/
theorem claim4_pure_filter (doc : List Str) :
    List.Sublist (create_sign_subtitles doc) (doc.map pyStrip) :=
  signGo_sublist doc false

/-! ### The Filename Builder (`clean_filename`, `build_proper_filename`) -/

/-- Python `str.title()` on the ASCII fragment: the first letter of every
maximal run of letters is uppercased, the following letters lowercased,
all other characters left alone. -/
def titleAux (prev_alpha : Bool) : Str → Str
  | [] => []
  | c :: cs =>
    if c.isAlpha then
      (if prev_alpha then Char.toLower c else Char.toUpper c) :: titleAux true cs
    else c :: titleAux false cs

/-- `filename.title()`. -/
def pyTitle (s : Str) : Str := titleAux false s

/-- `re.sub(r'[\[\]_]', ' ', filename)`: every bracket or underscore
becomes a space. -/
def subBrackets (s : Str) : Str :=
  s.map (fun c => if c = '[' || c = ']' || c = '_' then ' ' else c)

/-- `re.sub(r'\s+', ' ', filename)`: every maximal run of whitespace
becomes a single space. -/
def collapseWsAux (prev_space : Bool) : Str → Str
  | [] => []
  | c :: cs =>
    if isPySpace c then
      (if prev_space then collapseWsAux true cs else ' ' :: collapseWsAux true cs)
    else c :: collapseWsAux false cs

/-- `re.sub(r'\s+', ' ', filename)` from the start of the string. -/
def collapseWs (s : Str) : Str := collapseWsAux false s

/-- `clean_filename` (lines 77-84): replace brackets and underscores by
spaces, collapse whitespace runs, strip, then title-case. -/
def clean_filename (filename : Str) : Str :=
  pyTitle (pyStrip (collapseWs (subBrackets filename)))

/-- The `anitopy.parse` result fields consulted by
`build_proper_filename`; an absent dictionary key is `none`.  (A
list-valued field, which the code collapses to its first element, is
represented here by that element.) -/
structure Parsed where
  anime_title : Option Str
  episode_number : Option Str
  file_extension : Option Str
  anime_season : Option Str
  language : Option Str

/-- `build_proper_filename` (lines 86-106): defaults are `Unknown`, the
empty episode, extension `mkv` and language `Jpn`; the ` S{season}` infix
appears only when `anime_season` is present and truthy (non-empty). -/
def build_proper_filename (p : Parsed) : Str :=
  let anime_title := clean_filename (p.anime_title.getD ("Unknown".data))
  let episode_number := p.episode_number.getD []
  let file_extension := p.file_extension.getD ("mkv".data)
  let season_info : Str :=
    match p.anime_season with
    | none => []
    | some s => if s = [] then [] else " S".data ++ s
  let language := p.language.getD ("Jpn".data)
  anime_title ++ season_info ++ " - ".data ++ episode_number ++
    " [".data ++ language ++ "].".data ++ file_extension

/-- Claim C8, confirmed: the Filename Builder produces
`{title} S{season} - {episode} [{language}].{extension}` when a season is
present and `{title} - {episode} [{language}].{extension}` otherwise,
with the title normalized by `clean_filename`; the spec's concrete
example and normalization example both evaluate as stated.  (The code's
fixed fallback `processed_anime.mkv` guards the `except` branch, which a
pure total model cannot reach.) -/
theorem claim8_filename_builder :
    build_proper_filename ⟨some ("shingeki no kyojin".data), some ("5".data),
        some ("mkv".data), some ("2".data), some ("eng".data)⟩
      = "Shingeki No Kyojin S2 - 5 [eng].mkv".data
    ∧ clean_filename ("[Group]_Anime_Title".data) = "Group Anime Title".data
    ∧ (∀ (p : Parsed) (s : Str), p.anime_season = some s → s ≠ [] →
        build_proper_filename p
          = clean_filename (p.anime_title.getD ("Unknown".data)) ++ " S".data ++ s
            ++ " - ".data ++ p.episode_number.getD [] ++ " [".data
            ++ p.language.getD ("Jpn".data) ++ "].".data
            ++ p.file_extension.getD ("mkv".data))
    ∧ (∀ p : Parsed, p.anime_season = none →
        build_proper_filename p
          = clean_filename (p.anime_title.getD ("Unknown".data))
            ++ " - ".data ++ p.episode_number.getD [] ++ " [".data
            ++ p.language.getD ("Jpn".data) ++ "].".data
            ++ p.file_extension.getD ("mkv".data)) := by
  refine ⟨by decide, by decide, ?_, ?_⟩
  · intro p s hs hne
    simp [build_proper_filename, hs, hne, List.append_assoc]
  · intro p hn
    simp [build_proper_filename, hn, List.append_assoc]

/-- Claim C8, witness: the season-present pattern instantiated on the
spec's example metadata. -/
theorem claim8_witness :
    build_proper_filename ⟨some ("shingeki no kyojin".data), some ("5".data),
        some ("mkv".data), some ("2".data), some ("eng".data)⟩
      = clean_filename ("shingeki no kyojin".data) ++ " S".data ++ "2".data
        ++ " - ".data ++ "5".data ++ " [".data ++ "eng".data ++ "].".data
        ++ "mkv".data :=
  claim8_filename_builder.2.2.1
    ⟨some ("shingeki no kyojin".data), some ("5".data), some ("mkv".data),
     some ("2".data), some ("eng".data)⟩ ("2".data) rfl (by decide)

/-! ### The Pipeline Orchestrator (`process_anime_file`) -/

/-- Where, if anywhere, an unexpected exception strikes a
`process_anime_file` run and reaches the function's outer `except`.
`extract_subtitles` and `create_sign_subtitles` catch all of their own
exceptions (including the ffmpeg `TimeoutExpired`) and surface plain
`False`, so the real outer-except paths are: an exception before
extraction (e.g. out of `anitopy.parse`, line 191, before any file is
created), and the `mkvmerge` `subprocess.run` timeout (line 214,
`TimeoutExpired` is not caught locally), which strikes after both
intermediate subtitle files were created. -/
inductive ExcPoint where
  | no_exc
  | parse_exc
  | remux_timeout
deriving DecidableEq

/-- Outcomes of the external stages of one `process_anime_file` run:
whether `ffmpeg` extraction succeeds, whether the sign-subtitle file is
written successfully, whether `mkvmerge` exits with status zero, and
where an unexpected exception (if any) strikes. -/
structure RunEnv where
  extract_ok : Bool
  classify_ok : Bool
  remux_ok : Bool
  exc : ExcPoint

/-- Which files created by one run still exist when `process_anime_file`
returns: the extracted `temp_sub`, the classified `temp_sign_sub`, and
the remuxed output file. -/
structure TempFS where
  temp_sub : Bool
  temp_sign_sub : Bool
  output_file : Bool
deriving DecidableEq

/-- `process_anime_file` (lines 187-232): extraction failure,
classification failure and a non-zero `mkvmerge` exit each return
`(None, proper_name)` immediately; an unexpected exception reaching the
outer `except` returns `(None, original_name)` — before extraction with
no files created, or at the `mkvmerge` timeout with both intermediate
files on disk.  The two temp files are deleted (lines 220-226) only
after `mkvmerge` succeeded, so every failure path leaves behind
whatever files were already created. -/
def process_anime_file (env : RunEnv) (parsed : Parsed) (original_name : Str) :
    (Option Str × Str) × TempFS :=
  if env.exc = ExcPoint.parse_exc then ((none, original_name), ⟨false, false, false⟩)
  else
    let proper_name := build_proper_filename parsed
    if env.extract_ok = false then ((none, proper_name), ⟨false, false, false⟩)
    else if env.classify_ok = false then ((none, proper_name), ⟨true, false, false⟩)
    else if env.exc = ExcPoint.remux_timeout then
      ((none, original_name), ⟨true, true, false⟩)
    else if env.remux_ok = false then ((none, proper_name), ⟨true, true, false⟩)
    else ((some proper_name, proper_name), ⟨false, false, true⟩)

/-- Claim C9, counterexample: on a remux failure the returned display
name is the built proper filename, not the original input name — the
original name is used only on the outer-except paths. -/
theorem claim9_counterexample :
    (process_anime_file ⟨true, true, false, ExcPoint.no_exc⟩
        ⟨some ("shingeki no kyojin".data), some ("5".data), some ("mkv".data),
         some ("2".data), some ("eng".data)⟩ ("a.mkv".data)).1
      = (none, "Shingeki No Kyojin S2 - 5 [eng].mkv".data)
    ∧ "Shingeki No Kyojin S2 - 5 [eng].mkv".data ≠ "a.mkv".data := by
  refine ⟨by decide, by decide⟩

/-- Claim C9, amended: `outputPath` is `none` on every failing run
(populated exactly when all three stages succeed with no unexpected
exception), and `displayName` is always populated — it is the original
input name exactly on the outer-except paths (an exception before
extraction, or the `mkvmerge` timeout), and the built proper filename on
every exit not caused by an unexpected exception. -/
theorem claim9_result_contract (env : RunEnv) (parsed : Parsed) (name : Str) :
    ((process_anime_file env parsed name).1.1 = none ↔
        ¬(env.exc = ExcPoint.no_exc ∧ env.extract_ok = true ∧
          env.classify_ok = true ∧ env.remux_ok = true))
    ∧ (env.exc = ExcPoint.parse_exc →
        (process_anime_file env parsed name).1.2 = name)
    ∧ (env.exc = ExcPoint.remux_timeout ∧ env.extract_ok = true ∧
        env.classify_ok = true →
        (process_anime_file env parsed name).1.2 = name)
    ∧ (env.exc = ExcPoint.no_exc →
        (process_anime_file env parsed name).1.2 = build_proper_filename parsed) := by
  rcases env with ⟨e, c, r, x⟩
  cases e <;> cases c <;> cases r <;> cases x <;> simp [process_anime_file]

/-- Claim C9, witness: the amended theorem instantiated on a concrete
run that raises before extraction. -/
theorem claim9_witness :
    (process_anime_file ⟨true, true, true, ExcPoint.parse_exc⟩
        ⟨none, none, none, none, none⟩ ("a.mkv".data)).1.2 = "a.mkv".data :=
  (claim9_result_contract ⟨true, true, true, ExcPoint.parse_exc⟩
      ⟨none, none, none, none, none⟩ ("a.mkv".data)).2.1 rfl

/-! ### The size gate of `handle_file` -/

/-- An incoming message carrying a file: a document or a video, with the
file size in bytes. -/
inductive Incoming where
  | document (file_size : Nat)
  | video (file_size : Nat)

/-- Outcome of the size check at the top of `handle_file`
(lines 238-240): refuse and return, or continue to download and
processing. -/
inductive Gate where
  | refused_too_large
  | proceed
deriving DecidableEq

/-- The default `MAX_FILE_SIZE` (4 GiB, line 46). -/
def default_max_size : Nat := 4 * 1024 * 1024 * 1024

/-- The size gate of `handle_file`: `if message.document and
message.document.file_size > MAX_FILE_SIZE` — only document messages are
size-checked; every video message continues to the download. -/
def handle_file_gate (max_size : Nat) : Incoming → Gate
  | .document sz => if max_size < sz then .refused_too_large else .proceed
  | .video _ => .proceed

/-- Claim C6, counterexample: a video exceeding the default maximum is
not refused — the gate tests `message.document` only, so an oversized
video proceeds to download and processing. -/
theorem claim6_counterexample :
    default_max_size < default_max_size + 1
    ∧ handle_file_gate default_max_size (.video (default_max_size + 1))
        = .proceed
    ∧ handle_file_gate default_max_size (.document (default_max_size + 1))
        = .refused_too_large := by
  refine ⟨by decide, rfl, by decide⟩

/-- Claim C6, amended: the pipeline refuses an incoming document whose
size exceeds the configured maximum (default `4 * 1024 * 1024 * 1024`
bytes) before any download or extraction, and accepts documents at or
under the limit — but the check applies only to documents; a video is
never size-checked. -/
theorem claim6_size_gate (max_size sz : Nat) :
    (max_size < sz →
        handle_file_gate max_size (.document sz) = .refused_too_large)
    ∧ (sz ≤ max_size → handle_file_gate max_size (.document sz) = .proceed)
    ∧ handle_file_gate max_size (.video sz) = .proceed
    ∧ default_max_size = 4 * 1024 * 1024 * 1024 := by
  refine ⟨fun h => ?_, fun h => ?_, rfl, rfl⟩
  · simp [handle_file_gate, h]
  · simp [handle_file_gate, Nat.not_lt_of_le h]

/-- Claim C6, witness: the amended theorem instantiated on a concrete
oversized document. -/
theorem claim6_witness :
    handle_file_gate default_max_size (.document (default_max_size + 1))
      = .refused_too_large :=
  (claim6_size_gate default_max_size (default_max_size + 1)).1 (by decide)

/-! ### The Artifact Cache (`app.file_cache`, `handle_download`) -/

/-- The process-wide `app.file_cache` dictionary mapping a cache key to
`(output_path, proper_name)`, modelled as an association list in which a
later `put` shadows earlier bindings, together with the set of files
currently existing on storage. -/
structure CacheState where
  file_cache : List (Str × (Str × Str))
  disk : List Str

/-- Python dict lookup `app.file_cache.get(cache_key)` on the shadowing
association list. -/
def cacheGet : List (Str × (Str × Str)) → Str → Option (Str × Str)
  | [], _ => none
  | e :: es, k => if e.1 = k then some e.2 else cacheGet es k

/-- `app.file_cache[cache_key] = (output_path, proper_name)` (line 280):
insert or overwrite. -/
def cache_put (st : CacheState) (k p n : Str) : CacheState :=
  { st with file_cache := (k, (p, n)) :: st.file_cache }

/-- What `handle_download` reports to the caller: the expired/not-found
alert, a delivered document, or a failed delivery (logged and answered
with an error message, not an uncaught fault). -/
inductive DlResult where
  | not_found
  | sent (path name : Str)
  | send_failed (path name : Str)
deriving DecidableEq

/-- `handle_download` (lines 314-346): a missing key or missing backing
file answers "File expired" and leaves the state alone; otherwise the
file is sent (`delivery_ok` abstracts whether `reply_document`
succeeds), and the `finally` block removes the backing file and deletes
the cache entry whether or not the send succeeded. -/
def handle_download (delivery_ok : Bool) (st : CacheState) (k : Str) :
    DlResult × CacheState :=
  match cacheGet st.file_cache k with
  | none => (.not_found, st)
  | some (p, n) =>
    if p ∈ st.disk then
      ((if delivery_ok then .sent p n else .send_failed p n),
       ⟨st.file_cache.filter (fun e => e.1 ≠ k), st.disk.filter (fun q => q ≠ p)⟩)
    else (.not_found, st)

theorem cacheGet_erase (c : List (Str × (Str × Str))) (k : Str) :
    cacheGet (c.filter (fun e => !decide (e.1 = k))) k = none := by
  induction c with
  | nil => rfl
  | cons e es ih =>
    by_cases h : e.1 = k
    · simp [List.filter_cons, h, ih]
    · simp [List.filter_cons, h, ih, cacheGet]

/-- Claim C7, confirmed: retrieval is single-shot — after
`put(k, p, n)`, a `take(k)` whose backing file exists returns `(p, n)`
and removes the entry, a second `take(k)` signals not-found, and a
`take` on an absent key or on an entry whose backing file is gone also
signals not-found (the caller-facing alert, not an internal error). -/
theorem claim7_cache_single_shot (st : CacheState) (k p n : Str)
    (hp : p ∈ st.disk) :
    ((handle_download true (cache_put st k p n) k).1 = .sent p n)
    ∧ cacheGet (handle_download true (cache_put st k p n) k).2.file_cache k = none
    ∧ (handle_download true (handle_download true (cache_put st k p n) k).2 k).1
        = .not_found
    ∧ (∀ st' : CacheState, cacheGet st'.file_cache k = none →
        (handle_download true st' k).1 = .not_found)
    ∧ (∀ (st' : CacheState) (q m : Str),
        cacheGet st'.file_cache k = some (q, m) → q ∉ st'.disk →
        (handle_download true st' k).1 = .not_found) := by
  refine ⟨?_, ?_, ?_, ?_, ?_⟩
  · simp [handle_download, cache_put, cacheGet, hp]
  · simp [handle_download, cache_put, cacheGet, hp, cacheGet_erase]
  · simp [handle_download, cache_put, cacheGet, hp, cacheGet_erase]
  · intro st' h
    simp [handle_download, h]
  · intro st' q m h hq
    simp [handle_download, h, hq]

/-- Claim C7, witness: a concrete put/take/take sequence. -/
theorem claim7_witness :
    (handle_download true
        (cache_put ⟨[], ["p".data]⟩ ("k".data) ("p".data) ("n".data))
        ("k".data)).1
      = DlResult.sent ("p".data) ("n".data) :=
  (claim7_cache_single_shot ⟨[], ["p".data]⟩ ("k".data) ("p".data) ("n".data)
    (by decide)).1

/-- Claim C10, confirmed: when the entry's backing file exists at the
start of the take, consumption is unconditional — the final state does
not depend on whether delivery succeeds, and even on a failed delivery
the entry is removed, the backing file is deleted, and an immediate
retry signals not-found. -/
theorem claim10_consume_on_failure :
    (∀ (st : CacheState) (k : Str) (d d' : Bool),
        (handle_download d st k).2 = (handle_download d' st k).2)
    ∧ (∀ (st : CacheState) (k p n : Str),
        cacheGet st.file_cache k = some (p, n) → p ∈ st.disk →
        (handle_download false st k).1 = .send_failed p n
        ∧ cacheGet (handle_download false st k).2.file_cache k = none
        ∧ p ∉ (handle_download false st k).2.disk
        ∧ (handle_download true (handle_download false st k).2 k).1
            = .not_found) := by
  constructor
  · intro st k d d'
    unfold handle_download
    cases h : cacheGet st.file_cache k with
    | none => rfl
    | some v =>
      obtain ⟨q, m⟩ := v
      by_cases hq : q ∈ st.disk
      · simp [hq]
      · simp [hq]
  · intro st k p n h hp
    refine ⟨?_, ?_, ?_, ?_⟩
    · simp [handle_download, h, hp]
    · simp [handle_download, h, hp, cacheGet_erase]
    · simp [handle_download, h, hp]
    · simp [handle_download, h, hp, cacheGet_erase]

/-- Claim C10, witness: a concrete failed delivery consumes the entry. -/
theorem claim10_witness :
    (handle_download false ⟨[(("k".data), (("p".data), ("n".data)))], ["p".data]⟩
        ("k".data)).1
      = DlResult.send_failed ("p".data) ("n".data) :=
  (claim10_consume_on_failure.2 ⟨[(("k".data), (("p".data), ("n".data)))], ["p".data]⟩
    ("k".data) ("p".data) ("n".data) (by decide) (by decide)).1

end SGN
